import Mathlib

/-!
Shallow embedding of the stock-market application (`app.py`).

Modelling conventions:
* Python floats are modelled by `ℚ` (all the arithmetic in the source is
  plain field arithmetic), except the exchange index, whose fractional
  power forces `ℝ`.
* `datetime` timestamps are modelled as `Int` seconds; the fixed
  `timedelta(minutes=5)` window is 300 seconds.
* `datetime.now()` is an ambient input of the code; it is passed
  explicitly as a `now : Int` parameter.
* A Python function that can return `None` is modelled as `Option`;
  an uncaught exception (the `ZeroDivisionError` in the index on an
  empty list) is modelled as the `none` branch of an `Option` result,
  with the doc comment of the definition recording that this branch is
  an uncontrolled fault in the source, not a returned error value.
-/

/-- A trade record, as appended by `Stock.record_trade` in `app.py`
(line 64): a dict with keys `timestamp`, `quantity`, `indicator`,
`price`. -/
structure Trade where
  timestamp : Int
  quantity : Int
  indicator : String
  price : ℚ
deriving DecidableEq

/-- The `Stock` class of `app.py` (lines 8-48): symbol, string-tagged
stock type, last dividend, fixed dividend, par value, and the list of
trades. -/
structure Stock where
  symbol : String
  stock_type : String
  last_dividend : ℚ
  fixed_dividend : ℚ
  par_value : ℚ
  trades : List Trade
deriving DecidableEq

/-- `Stock.record_trade` (`app.py` lines 50-64): appends the trade dict
to `self.trades`.  The source performs no validation of any field. -/
def Stock.record_trade (s : Stock) (timestamp quantity : Int)
    (indicator : String) (price : ℚ) : Stock :=
  { s with trades := s.trades ++ [⟨timestamp, quantity, indicator, price⟩] }

/-- The list-comprehension filter of `Stock.get_trades_in_last_5_minutes`
(`app.py` line 74), with the reference time and the window duration as
parameters: keeps the trades with `timestamp >= now - duration`. -/
def tradesWindow (trades : List Trade) (now duration : Int) : List Trade :=
  trades.filter (fun t => now - duration ≤ t.timestamp)

/-- `Stock.get_trades_in_last_5_minutes` (`app.py` lines 66-74):
the window at the ambient clock value `now` with the fixed duration
`timedelta(minutes=5)` = 300 seconds. -/
def Stock.get_trades_in_last_5_minutes (s : Stock) (now : Int) : List Trade :=
  tradesWindow s.trades now 300

/-- `calculate_dividend_yield` (`app.py` lines 76-94).  `None` is
modelled as `none`; note the guard in the source is `price == 0`, and a
stock type that is neither `"Common"` nor `"Preferred"` falls through
both branches and returns `None`. -/
def calculate_dividend_yield (stock : Stock) (price : ℚ) : Option ℚ :=
  if price = 0 then none
  else if stock.stock_type = "Common" then some (stock.last_dividend / price)
  else if stock.stock_type = "Preferred" then
    some (stock.fixed_dividend * stock.par_value / price)
  else none

/-- The local `dividend` of `calculate_pe_ratio_fn` (`app.py` line 111):
`last_dividend` when the stock type is `"Common"`, else
`fixed_dividend * par_value`. -/
def dividend_basis (stock : Stock) : ℚ :=
  if stock.stock_type = "Common" then stock.last_dividend
  else stock.fixed_dividend * stock.par_value

/-- `calculate_pe_ratio` of `app.py` (lines 96-112); the `_fn` suffix is
an artifact of the Lean development.  The guard in the source is
`price == 0`; the result is `price / dividend` unless the dividend basis
is zero, in which case it is `None`. -/
def calculate_pe_ratio_fn (stock : Stock) (price : ℚ) : Option ℚ :=
  if price = 0 then none
  else if dividend_basis stock ≠ 0 then some (price / dividend_basis stock)
  else none

/-- `calculate_volume_weighted_stock_price` (`app.py` lines 114-128):
sums `price * quantity` and `quantity` over the 5-minute window and
returns their quotient, or `0` when the quantity sum is `0`. -/
def calculate_volume_weighted_stock_price (stock : Stock) (now : Int) : ℚ :=
  let trades := stock.get_trades_in_last_5_minutes now
  let total_traded_price_quantity : ℚ :=
    (trades.map (fun t => t.price * (t.quantity : ℚ))).sum
  let total_quantity : ℤ := (trades.map (fun t => t.quantity)).sum
  if total_quantity ≠ 0 then total_traded_price_quantity / (total_quantity : ℚ)
  else 0

/-- `calculate_gbce_all_share_index` (`app.py` lines 130-143):
`math.prod` of the per-stock volume-weighted prices raised to the power
`1 / len(vwsp_values)`.  On the empty list the source evaluates
`1 / len(vwsp_values)` = `1 / 0` and raises an uncaught
`ZeroDivisionError`; that uncontrolled fault is the `none` branch here —
the source has no error-value return path. -/
noncomputable def calculate_gbce_all_share_index
    (stocks : List Stock) (now : Int) : Option ℝ :=
  let vwsp_values := stocks.map (fun s => calculate_volume_weighted_stock_price s now)
  if vwsp_values.length = 0 then none
  else some (Real.rpow (vwsp_values.prod : ℝ) (1 / (vwsp_values.length : ℝ)))

/-- The in-memory registry of `app.py` (lines 146-152), as a lookup
function, and the five concrete stocks. -/
def teaStock : Stock := ⟨"TEA", "Common", 0, 0, 100, []⟩

def popStock : Stock := ⟨"POP", "Common", 8, 0, 100, []⟩

def aleStock : Stock := ⟨"ALE", "Common", 23, 0, 60, []⟩

def ginStock : Stock := ⟨"GIN", "Preferred", 8, 1/50, 100, []⟩

def joeStock : Stock := ⟨"JOE", "Common", 13, 0, 250, []⟩

def initialRegistry : String → Option Stock := fun k =>
  if k = "TEA" then some teaStock
  else if k = "POP" then some popStock
  else if k = "ALE" then some aleStock
  else if k = "GIN" then some ginStock
  else if k = "JOE" then some joeStock
  else none

/-- The `record_trade` endpoint of `app.py` (lines 200-230), after the
transport layer has parsed the fields: looks the symbol up in the
registry (404 / `none` when absent) and otherwise appends the trade via
`Stock.record_trade`, updating only that symbol's entry.  The endpoint
performs no range validation: `int(...)`/`float(...)` parsing accepts
negative quantities and prices. -/
def recordTradeApp (reg : String → Option Stock) (symbol : String)
    (timestamp quantity : Int) (indicator : String) (price : ℚ) :
    Option (String → Option Stock) :=
  match reg symbol with
  | none => none
  | some s =>
      some (fun k => if k = symbol then
              some (s.record_trade timestamp quantity indicator price)
            else reg k)

/-- A trade of the concrete shape used by the spec's worked VWAP example:
price 100, quantity 10, at time 300. -/
def tradeA : Trade := ⟨300, 10, "buy", 100⟩

/-- Second example trade: price 120, quantity 5, at time 0. -/
def tradeB : Trade := ⟨0, 5, "sell", 120⟩

/-- The POP stock with the two example trades recorded. -/
def popTraded : Stock := { popStock with trades := [tradeA, tradeB] }

/-- C1: for every stock and reference time, the volume-weighted price is
the window's notional sum divided by its quantity sum when the quantity
sum is positive, and is `0` when the window holds no trades. -/
theorem vwap_quotient_and_empty_window (s : Stock) (now : Int) :
    (0 < ((s.get_trades_in_last_5_minutes now).map (fun t => t.quantity)).sum →
      calculate_volume_weighted_stock_price s now =
        ((s.get_trades_in_last_5_minutes now).map
            (fun t => t.price * (t.quantity : ℚ))).sum /
          ((((s.get_trades_in_last_5_minutes now).map
              (fun t => t.quantity)).sum : ℤ) : ℚ)) ∧
    (s.get_trades_in_last_5_minutes now = [] →
      calculate_volume_weighted_stock_price s now = 0) := by
  constructor
  · intro h
    have hne : ((s.get_trades_in_last_5_minutes now).map
        (fun t => t.quantity)).sum ≠ 0 := ne_of_gt h
    simp only [calculate_volume_weighted_stock_price, if_pos hne]
  · intro h
    simp [calculate_volume_weighted_stock_price, h]

/-- Witness for C1 at the spec's worked example: two trades inside the
window with quantities 10 and 5, so the quantity sum is positive and the
result is the notional quotient. -/
theorem vwap_quotient_and_empty_window_witness :
    0 < ((popTraded.get_trades_in_last_5_minutes 300).map
        (fun t => t.quantity)).sum ∧
    calculate_volume_weighted_stock_price popTraded 300 =
      ((popTraded.get_trades_in_last_5_minutes 300).map
          (fun t => t.price * (t.quantity : ℚ))).sum /
        ((((popTraded.get_trades_in_last_5_minutes 300).map
            (fun t => t.quantity)).sum : ℤ) : ℚ) :=
  ⟨by decide, (vwap_quotient_and_empty_window popTraded 300).1 (by decide)⟩

/-- C2: over a non-empty list of stocks the exchange index is the product
of the per-stock volume-weighted prices raised to the power `1/n`, and a
single zero-valued stock drives the index to `0`. -/
theorem gbce_index_geometric_mean (stocks : List Stock) (now : Int)
    (h : stocks ≠ []) :
    calculate_gbce_all_share_index stocks now =
      some (Real.rpow
        (((stocks.map (fun s => calculate_volume_weighted_stock_price s now)).prod : ℚ) : ℝ)
        (1 / (stocks.length : ℝ))) ∧
    ((∃ s ∈ stocks, calculate_volume_weighted_stock_price s now = 0) →
      calculate_gbce_all_share_index stocks now = some 0) := by
  have hne : stocks.length ≠ 0 := fun h0 => h (List.length_eq_zero.mp h0)
  have hmain : calculate_gbce_all_share_index stocks now =
      some (Real.rpow
        (((stocks.map (fun s => calculate_volume_weighted_stock_price s now)).prod : ℚ) : ℝ)
        (1 / (stocks.length : ℝ))) := by
    simp only [calculate_gbce_all_share_index, List.length_map]
    rw [if_neg hne]
  refine ⟨hmain, fun hz => ?_⟩
  obtain ⟨s, hs, hv⟩ := hz
  have hprod : (stocks.map (fun s => calculate_volume_weighted_stock_price s now)).prod = 0 :=
    List.prod_eq_zero (List.mem_map.mpr ⟨s, hs, hv⟩)
  rw [hmain, hprod]
  norm_num
  exact Real.zero_rpow (inv_ne_zero (Nat.cast_ne_zero.mpr hne))

/-- Witness for C2: the registry's TEA stock alone, with no trades, has
volume-weighted price `0`, so the index over `[teaStock]` is `0`. -/
theorem gbce_index_geometric_mean_witness :
    ([teaStock] : List Stock) ≠ [] ∧
    calculate_gbce_all_share_index [teaStock] 0 = some 0 :=
  ⟨List.cons_ne_nil _ _,
    (gbce_index_geometric_mean [teaStock] 0 (List.cons_ne_nil _ _)).2
      ⟨teaStock, List.mem_singleton.mpr rfl, by decide⟩⟩

/-- C5 (code bug): on the empty stock list the source evaluates
`1 / len(vwsp_values)` with `len` = 0 and raises an uncaught
`ZeroDivisionError` — a crash, not a returned error value.  The model's
`none` branch is exactly that fault. -/
theorem gbce_index_empty_faults :
    calculate_gbce_all_share_index [] 0 = none := rfl

/-- Counterexample to C4: at the strictly negative price `-1`, the
dividend yield of POP is the number `-8` and its P/E ratio is the number
`-1/8` — neither calculation reports an undefined result, because the
source guards only `price == 0`. -/
theorem negative_price_not_undefined_cex :
    calculate_dividend_yield popStock (-1) = some (-8) ∧
    calculate_pe_ratio_fn popStock (-1) = some (-(1/8)) := by
  constructor
  · simp only [calculate_dividend_yield, popStock]
    norm_num
  · simp only [calculate_pe_ratio_fn, dividend_basis, popStock]
    norm_num

/-- C4 as amended: only a price equal to `0` makes the dividend-yield
and P/E calculations report the undefined (`None`) result; strictly
negative prices are not rejected. -/
theorem zero_price_undefined (stock : Stock) :
    calculate_dividend_yield stock 0 = none ∧
    calculate_pe_ratio_fn stock 0 = none := by
  constructor
  · simp [calculate_dividend_yield]
  · simp [calculate_pe_ratio_fn]

/-- C6: with a positive price, a Common stock's dividend yield is
`last_dividend / price` and a Preferred stock's is
`(fixed_dividend * par_value) / price`. -/
theorem dividend_yield_formulas (s : Stock) (p : ℚ) (hp : 0 < p) :
    (s.stock_type = "Common" →
      calculate_dividend_yield s p = some (s.last_dividend / p)) ∧
    (s.stock_type = "Preferred" →
      calculate_dividend_yield s p = some (s.fixed_dividend * s.par_value / p)) := by
  have hp0 : p ≠ 0 := ne_of_gt hp
  constructor
  · intro hc
    simp [calculate_dividend_yield, hp0, hc]
  · intro hpref
    have hnc : s.stock_type ≠ "Common" := by
      rw [hpref]; decide
    simp [calculate_dividend_yield, hp0, hnc, hpref]

/-- Witness for C6 at POP ("Common") and GIN ("Preferred") with
price 2. -/
theorem dividend_yield_formulas_witness :
    (0 < (2 : ℚ) ∧
      calculate_dividend_yield popStock 2 = some (popStock.last_dividend / 2)) ∧
    (0 < (4 : ℚ) ∧
      calculate_dividend_yield ginStock 4 =
        some (ginStock.fixed_dividend * ginStock.par_value / 4)) :=
  ⟨⟨by decide, (dividend_yield_formulas popStock 2 (by decide)).1 rfl⟩,
   ⟨by decide, (dividend_yield_formulas ginStock 4 (by decide)).2 rfl⟩⟩

/-- C7: with a positive price, the P/E ratio is the price divided by the
dividend basis (`last_dividend` for Common, `fixed_dividend * par_value`
for Preferred) when that basis is non-zero, and is undefined when the
basis is `0`. -/
theorem pe_formula_and_zero_basis (s : Stock) (p : ℚ) (hp : 0 < p)
    (hk : s.stock_type = "Common" ∨ s.stock_type = "Preferred") :
    (dividend_basis s ≠ 0 →
      calculate_pe_ratio_fn s p = some (p / dividend_basis s)) ∧
    (dividend_basis s = 0 → calculate_pe_ratio_fn s p = none) := by
  have hp0 : p ≠ 0 := ne_of_gt hp
  constructor
  · intro hb
    simp [calculate_pe_ratio_fn, hp0, hb]
  · intro hb
    simp [calculate_pe_ratio_fn, hp0, hb]

/-- Witness for C7 at POP (Common, basis `8 ≠ 0`) with price 2, and at
TEA (Common, basis `0`) with price 3. -/
theorem pe_formula_and_zero_basis_witness :
    (0 < (2 : ℚ) ∧ dividend_basis popStock ≠ 0 ∧
      calculate_pe_ratio_fn popStock 2 = some (2 / dividend_basis popStock)) ∧
    (0 < (3 : ℚ) ∧ dividend_basis teaStock = 0 ∧
      calculate_pe_ratio_fn teaStock 3 = none) :=
  ⟨⟨by decide, by decide,
      (pe_formula_and_zero_basis popStock 2 (by decide) (Or.inl rfl)).1 (by decide)⟩,
   ⟨by decide, by decide,
      (pe_formula_and_zero_basis teaStock 3 (by decide) (Or.inl rfl)).2 (by decide)⟩⟩

/-- C10: a stock whose type string is neither "Common" nor "Preferred"
falls through both branches of the dividend-yield calculation and gets
the undefined (`None`) result even at a positive price. -/
theorem unknown_stock_type_yield_none (s : Stock) (p : ℚ) (hp : 0 < p)
    (h1 : s.stock_type ≠ "Common") (h2 : s.stock_type ≠ "Preferred") :
    calculate_dividend_yield s p = none := by
  simp [calculate_dividend_yield, ne_of_gt hp, h1, h2]

/-- Witness for C10: a stock with type string "Gorilla" at price 5. -/
theorem unknown_stock_type_yield_none_witness :
    0 < (5 : ℚ) ∧
    (Stock.mk "ZOO" "Gorilla" 8 0 100 []).stock_type ≠ "Common" ∧
    (Stock.mk "ZOO" "Gorilla" 8 0 100 []).stock_type ≠ "Preferred" ∧
    calculate_dividend_yield (Stock.mk "ZOO" "Gorilla" 8 0 100 []) 5 = none :=
  ⟨by decide, by decide, by decide,
    unknown_stock_type_yield_none (Stock.mk "ZOO" "Gorilla" 8 0 100 []) 5
      (by decide) (by decide) (by decide)⟩

/-- Counterexample to C3: recording a trade with the negative quantity
`-5` on POP does not fail — the endpoint succeeds and the entry is
appended, because neither `Stock.record_trade` nor the endpoint checks
`quantity > 0` or `price >= 0`. -/
theorem record_invalid_trade_cex :
    (popStock.record_trade 0 (-5) "buy" 100).trades ≠ popStock.trades ∧
    (recordTradeApp initialRegistry "POP" 0 (-5) "buy" 100).isSome = true := by
  constructor
  · decide
  · rfl

/-- C3 as amended: a trade with `quantity <= 0` or `price < 0` is not
rejected; it is appended to the ledger exactly like a valid one. -/
theorem record_trade_appends_despite_invalid (s : Stock) (ts q : Int)
    (ind : String) (p : ℚ) (h : q ≤ 0 ∨ p < 0) :
    (s.record_trade ts q ind p).trades = s.trades ++ [⟨ts, q, ind, p⟩] := rfl

/-- Witness for the amended C3: quantity `-5`, price `100` on POP. -/
theorem record_trade_appends_despite_invalid_witness :
    ((-5 : ℤ) ≤ 0 ∨ (100 : ℚ) < 0) ∧
    (popStock.record_trade 0 (-5) "buy" 100).trades =
      popStock.trades ++ [⟨0, -5, "buy", 100⟩] :=
  ⟨Or.inl (by decide),
    record_trade_appends_despite_invalid popStock 0 (-5) "buy" 100
      (Or.inl (by decide))⟩

/-- C8: a trade stamped exactly `now - duration` is kept (inclusive
lower bound), a strictly older trade is dropped, and the window is the
ordered sub-sequence of the ledger restricted to
`timestamp >= now - duration`. -/
theorem window_inclusive_bound_subsequence (trades : List Trade)
    (now dur : Int) :
    (∀ t ∈ trades, t.timestamp = now - dur → t ∈ tradesWindow trades now dur) ∧
    (∀ t : Trade, t.timestamp < now - dur → t ∉ tradesWindow trades now dur) ∧
    List.Sublist (tradesWindow trades now dur) trades ∧
    (∀ t : Trade, t ∈ tradesWindow trades now dur ↔
      t ∈ trades ∧ now - dur ≤ t.timestamp) := by
  refine ⟨?_, ?_, List.filter_sublist _, ?_⟩
  · intro t ht he
    exact List.mem_filter.mpr ⟨ht, by simp [he]⟩
  · intro t hlt hmem
    have hle := (List.mem_filter.mp hmem).2
    simp only [decide_eq_true_eq] at hle
    exact absurd hle (not_le.mpr hlt)
  · intro t
    simp [tradesWindow, List.mem_filter]

/-- Witness for C8: with `now = dur = 300`, the trade stamped `0` sits
exactly on the lower bound and is included. -/
theorem window_inclusive_bound_subsequence_witness :
    tradeB ∈ [tradeA, tradeB] ∧ tradeB.timestamp = 300 - 300 ∧
    tradeB ∈ tradesWindow [tradeA, tradeB] 300 300 :=
  ⟨by decide, by decide,
    (window_inclusive_bound_subsequence [tradeA, tradeB] 300 300).1
      tradeB (by decide) (by decide)⟩

/-- C9: a successful record on a registered symbol yields a registry in
which that symbol's stock has the old ledger with exactly the one new
trade appended, all its economic parameters unchanged, and every other
symbol mapped exactly as before. -/
theorem record_trade_frame (reg : String → Option Stock) (sym : String)
    (ts q : Int) (ind : String) (p : ℚ) (s : Stock) (h : reg sym = some s) :
    ∃ reg', recordTradeApp reg sym ts q ind p = some reg' ∧
      (∃ s', reg' sym = some s' ∧
        s'.symbol = s.symbol ∧ s'.stock_type = s.stock_type ∧
        s'.last_dividend = s.last_dividend ∧
        s'.fixed_dividend = s.fixed_dividend ∧
        s'.par_value = s.par_value ∧
        s'.trades = s.trades ++ [⟨ts, q, ind, p⟩]) ∧
      ∀ k, k ≠ sym → reg' k = reg k := by
  refine ⟨fun k => if k = sym then some (s.record_trade ts q ind p)
    else reg k, ?_,
    ⟨s.record_trade ts q ind p, ?_, rfl, rfl, rfl, rfl, rfl, rfl⟩, ?_⟩
  · simp [recordTradeApp, h]
  · simp
  · intro k hk
    simp [hk]

/-- Witness for C9: recording quantity 5 at price 100 on POP in the
initial registry. -/
theorem record_trade_frame_witness :
    initialRegistry "POP" = some popStock ∧
    (∃ reg', recordTradeApp initialRegistry "POP" 1 5 "buy" 100 = some reg' ∧
      (∃ s', reg' "POP" = some s' ∧
        s'.symbol = popStock.symbol ∧ s'.stock_type = popStock.stock_type ∧
        s'.last_dividend = popStock.last_dividend ∧
        s'.fixed_dividend = popStock.fixed_dividend ∧
        s'.par_value = popStock.par_value ∧
        s'.trades = popStock.trades ++ [⟨1, 5, "buy", 100⟩]) ∧
      ∀ k, k ≠ "POP" → reg' k = initialRegistry k) :=
  ⟨rfl, record_trade_frame initialRegistry "POP" 1 5 "buy" 100 popStock rfl⟩
